import Mathlib

/-!
Shallow embedding of the `http-health-checker` repository
(`src/lib.rs` and `src/main.rs`) and proofs of the specification claims.

Modelling conventions:
- `u16`, `u64`, `u128` values are `Nat` with explicit `% 2 ^ w` where the
  source performs a narrowing cast;
- `std::time::Duration` is a pair of seconds and nanoseconds, as in Rust;
- `chrono::DateTime<Utc>` is an opaque instant modelled as an `Int`
  (its serde form is an RFC-3339 string that encodes the instant
  injectively, so it is modelled as a JSON number carrying the instant);
- the outcome of `reqwest` `send()` for a given URL — a response with a
  status code, or a transport error carrying `e.to_string()` — together
  with the elapsed time and the `Utc::now()` reading is an environment
  parameter, since it is external I/O.
-/

namespace HHC

/-- Model of `std::time::Duration`: seconds (`u64`) and nanoseconds (`< 10^9`). -/
structure Duration where
  secs : Nat
  nanos : Nat
deriving Repr, DecidableEq

/-- Model of `Duration::as_millis`: `secs as u128 * 1000 + (nanos / 1_000_000) as u128`.
For `secs < 2^64` this u128 arithmetic does not wrap, so no `% 2^128`. -/
def Duration.as_millis (d : Duration) : Nat :=
  d.secs * 1000 + d.nanos / 1000000

/-- The narrowing cast `as u64` on an unsigned value. -/
def toU64 (n : Nat) : Nat := n % 2 ^ 64

/-- The `HealthCheck` record of `src/lib.rs`. -/
structure HealthCheck where
  url : String
  status : String
  status_code : Option Nat
  response_time_ms : Nat
  timestamp : Int
  error : Option String
deriving Repr, DecidableEq

/-- Model of `HealthCheck::new_success` (`src/lib.rs`): status `"UP"`,
`status_code = Some(code)`, `response_time_ms = as_millis() as u64`,
`error = None`. `now` stands for the `Utc::now()` reading. -/
def HealthCheck.new_success (now : Int) (url : String) (status_code : Nat)
    (response_time : Duration) : HealthCheck :=
  { url := url
    status := "UP"
    status_code := some status_code
    response_time_ms := toU64 response_time.as_millis
    timestamp := now
    error := none }

/-- Model of `HealthCheck::new_failure` (`src/lib.rs`): status `"DOWN"`,
`status_code = None`, `response_time_ms = as_millis() as u64`,
`error = Some(error)`. -/
def HealthCheck.new_failure (now : Int) (url : String) (error : String)
    (response_time : Duration) : HealthCheck :=
  { url := url
    status := "DOWN"
    status_code := none
    response_time_ms := toU64 response_time.as_millis
    timestamp := now
    error := some error }

/-- Result of `self.client.get(url).send().await`: either a response whose
status code is `status`, or a transport error whose `e.to_string()` is
`msg`. -/
inductive SendResult where
  | ok (status : Nat)
  | err (msg : String)
deriving Repr, DecidableEq

/-- External I/O of one probe: the send result, the `start.elapsed()`
duration, and the `Utc::now()` instant at outcome construction. -/
structure ProbeEnv where
  result : SendResult
  elapsed : Duration
  now : Int
deriving Repr, DecidableEq

/-- Model of `reqwest::StatusCode::is_success`: `200 <= code && code < 300`. -/
def is_success (code : Nat) : Bool :=
  decide (200 ≤ code) && decide (code < 300)

/-- Model of `HealthChecker::check_url` (`src/lib.rs`), with the probe I/O supplied
by `env`. -/
def check_url (env : String → ProbeEnv) (url : String) : HealthCheck :=
  let e := env url
  match e.result with
  | .ok code =>
      if is_success code then
        HealthCheck.new_success e.now url code e.elapsed
      else
        HealthCheck.new_failure e.now url ("HTTP " ++ toString code) e.elapsed
  | .err msg => HealthCheck.new_failure e.now url msg e.elapsed

/-- Model of `HealthChecker::check_all_urls` (`src/lib.rs`):
`join_all(urls.iter().map(|url| self.check_url(url)))` — all probes are
awaited and the results are returned in input order. -/
def check_all_urls (env : String → ProbeEnv) (urls : List String) :
    List HealthCheck :=
  urls.map (check_url env)

/-- The data-model invariant of §3 of the spec, restricted to the parts a
single record can satisfy: `"UP"` implies a status code in `[200, 299]` and
no error; `"DOWN"` implies an error message is present. -/
def OutcomeInvariant (hc : HealthCheck) : Prop :=
  (hc.status = "UP" →
    (∃ c, hc.status_code = some c ∧ 200 ≤ c ∧ c ≤ 299) ∧ hc.error = none) ∧
  (hc.status = "DOWN" → hc.error.isSome = true)

instance (hc : HealthCheck) : Decidable (OutcomeInvariant hc) := by
  unfold OutcomeInvariant
  rcases hc with ⟨u, s, sc, rt, ts, e⟩
  rcases sc with _ | c
  · exact instDecidableAnd
  · exact instDecidableAnd

/-- A concrete probe environment: the named URL yields an HTTP 500
response, every other URL a 200 response. -/
def env500 : String → ProbeEnv := fun u =>
  if u = "https://httpbin.org/status/500" then
    ⟨SendResult.ok 500, ⟨0, 42000000⟩, 1700000000⟩
  else
    ⟨SendResult.ok 200, ⟨0, 42000000⟩, 1700000000⟩

/-- A concrete probe environment: the named URL fails at transport level,
every other URL yields a 200 response. -/
def envErr : String → ProbeEnv := fun u =>
  if u = "https://example.invalid/" then
    ⟨SendResult.err "error sending request", ⟨2, 0⟩, 1700000000⟩
  else
    ⟨SendResult.ok 200, ⟨0, 5000000⟩, 1700000000⟩

end HHC

namespace HHC

/-- Claim C3: whenever the probe of `url` receives a response whose status
code lies in `[200, 299]`, `check_url` returns an outcome with
`status = "UP"`, `status_code = Some(code)`, and `error` absent. -/
theorem check_url_success_is_up (env : String → ProbeEnv) (url : String)
    (code : Nat) (d : Duration) (now : Int)
    (henv : env url = ⟨SendResult.ok code, d, now⟩)
    (hlo : 200 ≤ code) (hhi : code ≤ 299) :
    (check_url env url).status = "UP" ∧
    (check_url env url).status_code = some code ∧
    (check_url env url).error = none := by
  have hs : is_success code = true := by
    simp [is_success, hlo, Nat.lt_succ_of_le hhi]
  simp [check_url, henv, hs, HealthCheck.new_success]

/-- Witness for C3 at a concrete environment and URL. -/
theorem check_url_success_is_up_witness :
    (check_url env500 "https://ok.example/").status = "UP" ∧
    (check_url env500 "https://ok.example/").status_code = some 200 ∧
    (check_url env500 "https://ok.example/").error = none :=
  check_url_success_is_up env500 "https://ok.example/" 200
    ⟨0, 42000000⟩ 1700000000 (by decide) (by decide) (by decide)

/-- Claim C1 counterexample: on a response with status code 500 the
outcome's `status_code` is `None`, not `Some(500)` — `check_url` routes
non-2xx responses through `HealthCheck::new_failure`, which always sets
`status_code: None`. This refutes the claim that `status_code` is present
and equal to the response's code. -/
theorem check_url_non2xx_drops_code :
    (check_url env500 "https://httpbin.org/status/500").status_code = none ∧
    (check_url env500 "https://httpbin.org/status/500").status_code ≠
      some 500 := by
  constructor
  · rfl
  · decide

/-- Claim C1 (amended): whenever the probe of `url` receives a response
whose status code lies outside `[200, 299]`, `check_url` returns an outcome
with `status = "DOWN"`, `status_code` absent (`None`), and
`error = "HTTP <code>"`. -/
theorem check_url_non2xx_is_down (env : String → ProbeEnv) (url : String)
    (code : Nat) (d : Duration) (now : Int)
    (henv : env url = ⟨SendResult.ok code, d, now⟩)
    (hout : code < 200 ∨ 299 < code) :
    (check_url env url).status = "DOWN" ∧
    (check_url env url).status_code = none ∧
    (check_url env url).error = some ("HTTP " ++ toString code) := by
  have hs : is_success code = false := by
    rcases hout with h | h
    · simp [is_success, Nat.not_le.mpr h]
    · simp [is_success, Nat.not_lt.mpr h]
  simp [check_url, henv, hs, HealthCheck.new_failure]

/-- Witness for the amended C1 at a concrete environment and URL. -/
theorem check_url_non2xx_is_down_witness :
    (check_url env500 "https://httpbin.org/status/500").status = "DOWN" ∧
    (check_url env500 "https://httpbin.org/status/500").status_code =
      none ∧
    (check_url env500 "https://httpbin.org/status/500").error =
      some ("HTTP " ++ toString 500) :=
  check_url_non2xx_is_down env500 "https://httpbin.org/status/500" 500
    ⟨0, 42000000⟩ 1700000000 (by decide) (Or.inr (by decide))

/-- Claim C4: whenever the probe of `url` ends in a transport-level failure
with human-readable message `msg`, `check_url` returns an outcome (it is a
total function — no exceptional exit) with `status = "DOWN"`,
`status_code` absent, and `error = Some(msg)`. -/
theorem check_url_transport_failure (env : String → ProbeEnv) (url : String)
    (msg : String) (d : Duration) (now : Int)
    (henv : env url = ⟨SendResult.err msg, d, now⟩) :
    (check_url env url).status = "DOWN" ∧
    (check_url env url).status_code = none ∧
    (check_url env url).error = some msg := by
  simp [check_url, henv, HealthCheck.new_failure]

/-- Witness for C4 at a concrete environment and URL. -/
theorem check_url_transport_failure_witness :
    (check_url envErr "https://example.invalid/").status = "DOWN" ∧
    (check_url envErr "https://example.invalid/").status_code = none ∧
    (check_url envErr "https://example.invalid/").error =
      some "error sending request" :=
  check_url_transport_failure envErr "https://example.invalid/"
    "error sending request" ⟨2, 0⟩ 1700000000 (by decide)

/-- Claim C5: every outcome produced by `check_url` satisfies the
data-model invariant: `"UP"` implies a status code in `[200, 299]` and no
error, `"DOWN"` implies an error message is present. -/
theorem check_url_invariant (env : String → ProbeEnv) (url : String) :
    OutcomeInvariant (check_url env url) := by
  rcases henv : env url with ⟨res, d, now⟩
  rcases res with code | msg
  · by_cases hs : is_success code = true
    · have hred : check_url env url = HealthCheck.new_success now url code d := by
        simp [check_url, henv, hs]
      have h2 : 200 ≤ code ∧ code < 300 := by simpa [is_success] using hs
      rw [hred]
      exact ⟨fun _ => ⟨⟨code, rfl, h2.1, Nat.lt_succ_iff.mp h2.2⟩, rfl⟩,
        fun hdown => by simp [HealthCheck.new_success] at hdown⟩
    · have hred : check_url env url =
          HealthCheck.new_failure now url ("HTTP " ++ toString code) d := by
        simp [check_url, henv, hs]
      rw [hred]
      exact ⟨fun hup => by simp [HealthCheck.new_failure] at hup, fun _ => rfl⟩
  · have hred : check_url env url = HealthCheck.new_failure now url msg d := by
      simp [check_url, henv]
    rw [hred]
    exact ⟨fun hup => by simp [HealthCheck.new_failure] at hup, fun _ => rfl⟩

/-- Witness for C5 at a concrete environment and URL. -/
theorem check_url_invariant_witness :
    OutcomeInvariant (check_url env500 "https://httpbin.org/status/500") :=
  check_url_invariant env500 "https://httpbin.org/status/500"

/-- Claim C9: `HealthCheck::new_success` performs no range check: for every
`url`, code `c` and duration `d` it returns a record with `status = "UP"`,
`status_code = Some(c)` and `error = None`; in particular at `c = 500` it
yields an `"UP"` record whose status code lies outside `[200, 299]`. -/
theorem new_success_no_range_check (now : Int) (url : String) (c : Nat)
    (d : Duration) :
    (HealthCheck.new_success now url c d).status = "UP" ∧
    (HealthCheck.new_success now url c d).status_code = some c ∧
    (HealthCheck.new_success now url c d).error = none ∧
    ((HealthCheck.new_success now url 500 d).status = "UP" ∧
      (HealthCheck.new_success now url 500 d).status_code = some 500 ∧
      ¬(200 ≤ 500 ∧ 500 ≤ 299)) := by
  refine ⟨rfl, rfl, rfl, rfl, rfl, ?_⟩
  decide

/-- The value of `as_millis` equals the total duration in nanoseconds divided by 10^6,
truncating: the whole-milliseconds floor of the duration. -/
theorem Duration.as_millis_eq_floor (d : Duration) :
    d.as_millis = (d.secs * 1000000000 + d.nanos) / 1000000 := by
  unfold Duration.as_millis
  have h : d.secs * 1000000000 + d.nanos = d.nanos + d.secs * 1000 * 1000000 := by
    ring
  rw [h, Nat.add_mul_div_right _ _ (by norm_num), Nat.add_comm]

/-- Claim C10: both constructors set `response_time_ms` to the duration in
whole milliseconds — the floor of total nanoseconds over 10^6 — reduced
modulo 2^64 by the `as u64` cast; any sub-millisecond duration records 0. -/
theorem response_time_ms_truncated (now : Int) (url : String) (c : Nat)
    (msg : String) (d : Duration) :
    (HealthCheck.new_success now url c d).response_time_ms =
      ((d.secs * 1000000000 + d.nanos) / 1000000) % 2 ^ 64 ∧
    (HealthCheck.new_failure now url msg d).response_time_ms =
      ((d.secs * 1000000000 + d.nanos) / 1000000) % 2 ^ 64 ∧
    (d.secs = 0 → d.nanos < 1000000 →
      (HealthCheck.new_success now url c d).response_time_ms = 0 ∧
      (HealthCheck.new_failure now url msg d).response_time_ms = 0) := by
  have hms : toU64 d.as_millis =
      ((d.secs * 1000000000 + d.nanos) / 1000000) % 2 ^ 64 := by
    rw [toU64, Duration.as_millis_eq_floor]
  refine ⟨hms, hms, fun hz hsub => ?_⟩
  have h0 : d.as_millis = 0 := by
    unfold Duration.as_millis
    rw [hz]
    simp [Nat.div_eq_of_lt hsub]
  constructor <;>
    simp [HealthCheck.new_success, HealthCheck.new_failure, toU64, h0]

/-- Witness for C10 at a concrete sub-millisecond duration. -/
theorem response_time_ms_truncated_witness :
    (HealthCheck.new_success 1700000000 "https://ok.example/" 200
        ⟨0, 999999⟩).response_time_ms =
      ((0 * 1000000000 + 999999) / 1000000) % 2 ^ 64 ∧
    (HealthCheck.new_failure 1700000000 "https://ok.example/" "timed out"
        ⟨0, 999999⟩).response_time_ms =
      ((0 * 1000000000 + 999999) / 1000000) % 2 ^ 64 ∧
    ((0 : Nat) = 0 → (999999 : Nat) < 1000000 →
      (HealthCheck.new_success 1700000000 "https://ok.example/" 200
          ⟨0, 999999⟩).response_time_ms = 0 ∧
      (HealthCheck.new_failure 1700000000 "https://ok.example/" "timed out"
          ⟨0, 999999⟩).response_time_ms = 0) :=
  response_time_ms_truncated 1700000000 "https://ok.example/" 200
    "timed out" ⟨0, 999999⟩

/-- The probed URL is echoed verbatim into the outcome's `url` field. -/
theorem check_url_url_eq (env : String → ProbeEnv) (u : String) :
    (check_url env u).url = u := by
  rcases henv : env u with ⟨res, d, now⟩
  rcases res with code | msg
  · by_cases hs : is_success code = true
    · simp [check_url, henv, hs, HealthCheck.new_success]
    · simp [check_url, henv, hs, HealthCheck.new_failure]
  · simp [check_url, henv, HealthCheck.new_failure]

/-- Claim C2: `check_all_urls` returns one outcome per input URL, in input
order — the output length equals the input length and the i-th outcome's
`url` field equals `urls[i]` (stated via `get?`, so it also covers
out-of-range indices, the empty list, and duplicates); `join_all` returns
results in the order the futures were created, independently of completion
order. -/
theorem check_all_urls_preserves_order (env : String → ProbeEnv)
    (urls : List String) :
    (check_all_urls env urls).length = urls.length ∧
    ∀ i : Nat, ((check_all_urls env urls).get? i).map HealthCheck.url =
      urls.get? i := by
  constructor
  · simp [check_all_urls]
  · intro i
    rw [check_all_urls, List.get?_map, Option.map_map]
    have h : (HealthCheck.url ∘ check_url env) = id := by
      funext u
      exact check_url_url_eq env u
    rw [h, Option.map_id]
    rfl

end HHC

namespace HHC

/-!
JSON model of the serde derive on `HealthCheck` and of
`serde_json::to_string_pretty(results)` in `save_results_to_file`
(`src/main.rs`): the batch is a top-level array of objects with fields
`url`, `status`, `status_code`, `response_time_ms`, `timestamp`, `error`;
`Option::None` serializes as `null`. The `timestamp` instant is carried by
a single JSON leaf (chrono's RFC-3339 string encodes the instant
injectively and parses back to it, so the leaf is modelled as a number
holding the instant). Pretty-printing is whitespace only and does not
affect the value tree.
-/

/-- JSON value trees. -/
inductive Json where
  | null
  | str (s : String)
  | num (n : Int)
  | arr (xs : List Json)
  | obj (fields : List (String × Json))
deriving Repr

/-- Serde serialization of `Option<u16>`: `None → null`, `Some c → c`. -/
def serOptU16 : Option Nat → Json
  | none => Json.null
  | some c => Json.num c

/-- Serde serialization of `Option<String>`. -/
def serOptString : Option String → Json
  | none => Json.null
  | some s => Json.str s

/-- Serde serialization of one `HealthCheck` record, fields in declaration
order. -/
def HealthCheck.toJson (hc : HealthCheck) : Json :=
  Json.obj
    [("url", Json.str hc.url),
     ("status", Json.str hc.status),
     ("status_code", serOptU16 hc.status_code),
     ("response_time_ms", Json.num hc.response_time_ms),
     ("timestamp", Json.num hc.timestamp),
     ("error", serOptString hc.error)]

/-- Serialization of a batch: a single top-level JSON array. -/
def serializeBatch (batch : List HealthCheck) : Json :=
  Json.arr (batch.map HealthCheck.toJson)

/-- Field lookup in a JSON object. -/
def getField : List (String × Json) → String → Option Json
  | [], _ => none
  | (k, v) :: rest, name => if k = name then some v else getField rest name

/-- Serde deserialization of a `String` field. -/
def deStr : Json → Option String
  | Json.str s => some s
  | _ => none

/-- Serde deserialization of an `Option<u16>` field: `null → None`, a
non-negative integer below `2^16` → `Some`, anything else is rejected. -/
def deOptU16 : Json → Option (Option Nat)
  | Json.null => some none
  | Json.num (Int.ofNat n) => if n < 65536 then some (some n) else none
  | _ => none

/-- Serde deserialization of a `u64` field: a non-negative integer below
`2^64` (the literal is `2^64`). -/
def deU64 : Json → Option Nat
  | Json.num (Int.ofNat n) =>
      if n < 18446744073709551616 then some n else none
  | _ => none

/-- Deserialization of the `timestamp` field: the carried instant. -/
def deInstant : Json → Option Int
  | Json.num n => some n
  | _ => none

/-- Serde deserialization of an `Option<String>` field. -/
def deOptString : Json → Option (Option String)
  | Json.null => some none
  | Json.str s => some (some s)
  | _ => none

/-- Serde deserialization of one `HealthCheck` record. -/
def HealthCheck.fromJson (j : Json) : Option HealthCheck :=
  match j with
  | Json.obj fields => do
      let url ← (getField fields "url").bind deStr
      let status ← (getField fields "status").bind deStr
      let code ← (getField fields "status_code").bind deOptU16
      let rt ← (getField fields "response_time_ms").bind deU64
      let ts ← (getField fields "timestamp").bind deInstant
      let err ← (getField fields "error").bind deOptString
      pure ⟨url, status, code, rt, ts, err⟩
  | _ => none

/-- Sequential deserialization of the records of a JSON array, as serde
deserializes a `Vec<HealthCheck>`: every element must be a valid record. -/
def deRecords : List Json → Option (List HealthCheck)
  | [] => some []
  | j :: rest => do
      let hc ← HealthCheck.fromJson j
      let tl ← deRecords rest
      pure (hc :: tl)

/-- Deserialization of a batch: a top-level array whose every element is a
valid record. -/
def deserializeBatch (j : Json) : Option (List HealthCheck) :=
  match j with
  | Json.arr xs => deRecords xs
  | _ => none

/-- A `HealthCheck` value is representable when its numeric fields fit the
Rust types `u16` and `u64` of the source record (the literal bound is
`2^64`). -/
def HealthCheck.Representable (hc : HealthCheck) : Prop :=
  (∀ c ∈ hc.status_code, c < 65536) ∧
    hc.response_time_ms < 18446744073709551616

instance (hc : HealthCheck) : Decidable hc.Representable := by
  unfold HealthCheck.Representable
  exact instDecidableAnd

/-- An `Option<u16>` value round-trips through its serde JSON form when the value
fits `u16`. -/
theorem deOptU16_serOptU16 (sc : Option Nat) (h : ∀ c ∈ sc, c < 65536) :
    deOptU16 (serOptU16 sc) = some sc := by
  rcases sc with _ | c
  · rfl
  · show deOptU16 (Json.num (Int.ofNat c)) = some (some c)
    rw [deOptU16, if_pos (h c rfl)]

/-- A `u64` value round-trips through its serde JSON form when the value fits
`u64`. -/
theorem deU64_num (rt : Nat) (h : rt < 18446744073709551616) :
    deU64 (Json.num (rt : Int)) = some rt := by
  show deU64 (Json.num (Int.ofNat rt)) = some rt
  rw [deU64, if_pos h]

/-- An `Option<String>` value round-trips through its serde JSON form. -/
theorem deOptString_serOptString (e : Option String) :
    deOptString (serOptString e) = some e := by
  rcases e with _ | msg <;> rfl

/-- One record round-trips through its JSON form. -/
theorem fromJson_toJson (hc : HealthCheck) (h : hc.Representable) :
    HealthCheck.fromJson hc.toJson = some hc := by
  obtain ⟨hcode, hrt⟩ := h
  rcases hc with ⟨u, s, sc, rt, ts, e⟩
  simp only [HealthCheck.status_code] at hcode
  simp only [HealthCheck.response_time_ms] at hrt
  have g1 : getField
      [("url", Json.str u), ("status", Json.str s),
       ("status_code", serOptU16 sc), ("response_time_ms", Json.num (rt : Int)),
       ("timestamp", Json.num ts), ("error", serOptString e)]
      "url" = some (Json.str u) := rfl
  have g2 : getField
      [("url", Json.str u), ("status", Json.str s),
       ("status_code", serOptU16 sc), ("response_time_ms", Json.num (rt : Int)),
       ("timestamp", Json.num ts), ("error", serOptString e)]
      "status" = some (Json.str s) := rfl
  have g3 : getField
      [("url", Json.str u), ("status", Json.str s),
       ("status_code", serOptU16 sc), ("response_time_ms", Json.num (rt : Int)),
       ("timestamp", Json.num ts), ("error", serOptString e)]
      "status_code" = some (serOptU16 sc) := rfl
  have g4 : getField
      [("url", Json.str u), ("status", Json.str s),
       ("status_code", serOptU16 sc), ("response_time_ms", Json.num (rt : Int)),
       ("timestamp", Json.num ts), ("error", serOptString e)]
      "response_time_ms" = some (Json.num (rt : Int)) := rfl
  have g5 : getField
      [("url", Json.str u), ("status", Json.str s),
       ("status_code", serOptU16 sc), ("response_time_ms", Json.num (rt : Int)),
       ("timestamp", Json.num ts), ("error", serOptString e)]
      "timestamp" = some (Json.num ts) := rfl
  have g6 : getField
      [("url", Json.str u), ("status", Json.str s),
       ("status_code", serOptU16 sc), ("response_time_ms", Json.num (rt : Int)),
       ("timestamp", Json.num ts), ("error", serOptString e)]
      "error" = some (serOptString e) := rfl
  show HealthCheck.fromJson (Json.obj
      [("url", Json.str u), ("status", Json.str s),
       ("status_code", serOptU16 sc), ("response_time_ms", Json.num (rt : Int)),
       ("timestamp", Json.num ts), ("error", serOptString e)]) =
    some ⟨u, s, sc, rt, ts, e⟩
  rw [HealthCheck.fromJson]
  rw [g1, g2, g3, g4, g5, g6]
  simp only [Option.some_bind]
  rw [deOptU16_serOptU16 sc hcode, deU64_num rt hrt,
    deOptString_serOptString e]
  rfl

/-- Claim C6: serializing a batch of outcomes to JSON (a top-level array,
absent `status_code`/`error` emitted as `null`) and deserializing it yields
the original batch, field for field. -/
theorem batch_json_round_trip (batch : List HealthCheck)
    (h : ∀ hc ∈ batch, hc.Representable) :
    deserializeBatch (serializeBatch batch) = some batch := by
  rw [serializeBatch, deserializeBatch]
  induction batch with
  | nil => rfl
  | cons hd tl ih =>
      have hhd : hd.Representable := h hd (List.mem_cons_self hd tl)
      have htl : ∀ hc ∈ tl, hc.Representable :=
        fun hc hm => h hc (List.mem_cons_of_mem hd hm)
      simp only [List.map_cons, deRecords, fromJson_toJson hd hhd,
        Option.some_bind, ih htl]
      rfl

/-- Witness for C6 at a concrete two-element batch (one UP with a status
code, one DOWN with an error and no status code). -/
theorem batch_json_round_trip_witness :
    deserializeBatch (serializeBatch
      [⟨"https://ok.example/", "UP", some 200, 42, 1700000000, none⟩,
       ⟨"https://example.invalid/", "DOWN", none, 2000, 1700000005,
        some "error sending request"⟩]) =
    some
      [⟨"https://ok.example/", "UP", some 200, 42, 1700000000, none⟩,
       ⟨"https://example.invalid/", "DOWN", none, 2000, 1700000005,
        some "error sending request"⟩] :=
  batch_json_round_trip _ (by decide)

end HHC

namespace HHC

/-!
Model of the scheduler loop of `main` (`src/main.rs`):

    loop {
        let results = checker.check_all_urls(&urls).await;
        print_results(&results);
        if let Some(output_file) = &cli.output {
            if let Err(e) = save_results_to_file(&results, output_file).await {
                eprintln!("Failed to save results: {}", e);
            }
        }
        if cli.once { break; }
        time::sleep(interval).await;
    }
    Ok(())

The loop's external I/O — the probe outcomes of each batch and the result
of each JSON file write — is an environment indexed by iteration number.
The loop's observable behavior is the ordered list of reporter events it
emits plus the process exit code (`some 0` for the `Ok(())` return after
`break`; `none` while the loop is still running when the fuel runs out).
-/

/-- Per-iteration external I/O: the probe I/O for this batch and the
result of the JSON file write (`none` = success, `some msg` = the I/O
error's display message). -/
structure IterEnv where
  probe : String → ProbeEnv
  writeErr : Option String

/-- Observable events of one run of the scheduler loop. -/
inductive Event where
  | printBatch (batch : List HealthCheck)
  | fileWrite (path : String) (batch : List HealthCheck) (ok : Bool)
  | stdoutMsg (msg : String)
  | stderrMsg (msg : String)
  | sleep (secs : Nat)
deriving Repr, DecidableEq

/-- The events one loop-body pass emits before the `once` test:
`print_results`, then — when an output path is set — the file write,
followed by `save_results_to_file`'s success message or by `main`'s
`eprintln!("Failed to save results: {}", e)`. -/
def iterEvents (output : Option String) (e : IterEnv)
    (results : List HealthCheck) : List Event :=
  Event.printBatch results ::
    match output with
    | none => []
    | some path =>
        match e.writeErr with
        | none =>
            [Event.fileWrite path results true,
             Event.stdoutMsg ("Results saved to " ++ path)]
        | some msg =>
            [Event.fileWrite path results false,
             Event.stderrMsg ("Failed to save results: " ++ msg)]

/-- The scheduler loop, given `fuel` available iterations and starting at
iteration `k`: the emitted events in order and the exit code. -/
def runLoop (urls : List String) (output : Option String) (once : Bool)
    (interval : Nat) (env : Nat → IterEnv) :
    Nat → Nat → List Event × Option Nat
  | 0, _ => ([], none)
  | fuel + 1, k =>
      let e := env k
      let results := check_all_urls e.probe urls
      let evs := iterEvents output e results
      if once then (evs, some 0)
      else
        let rest := runLoop urls output once interval env fuel (k + 1)
        (evs ++ Event.sleep interval :: rest.1, rest.2)

/-- The batches delivered to the terminal sink, in delivery order. -/
def batchesOf (evs : List Event) : List (List HealthCheck) :=
  evs.filterMap fun ev =>
    match ev with
    | Event.printBatch b => some b
    | _ => none

/-- How many inter-batch sleeps occurred. -/
def sleepCount (evs : List Event) : Nat :=
  (evs.filter fun ev =>
    match ev with
    | Event.sleep _ => true
    | _ => false).length

theorem batchesOf_iterEvents (output : Option String) (e : IterEnv)
    (results : List HealthCheck) :
    batchesOf (iterEvents output e results) = [results] := by
  rcases output with _ | path
  · rfl
  · rcases hw : e.writeErr with _ | msg <;>
      simp [iterEvents, batchesOf, hw]

theorem sleepCount_iterEvents (output : Option String) (e : IterEnv)
    (results : List HealthCheck) :
    sleepCount (iterEvents output e results) = 0 := by
  rcases output with _ | path
  · rfl
  · rcases hw : e.writeErr with _ | msg <;>
      simp [iterEvents, sleepCount, hw]

theorem batchesOf_append (a b : List Event) :
    batchesOf (a ++ b) = batchesOf a ++ batchesOf b := by
  simp [batchesOf]

theorem batchesOf_cons_sleep (n : Nat) (evs : List Event) :
    batchesOf (Event.sleep n :: evs) = batchesOf evs := by
  simp [batchesOf]

/-- The batches delivered and the exit code depend only on the probe part
of the environment, never on the write results: write failures are
swallowed. -/
theorem runLoop_ignores_writeErr (urls : List String)
    (output : Option String) (once : Bool) (interval : Nat)
    (env env' : Nat → IterEnv) (hp : ∀ i, (env i).probe = (env' i).probe) :
    ∀ fuel k,
      batchesOf (runLoop urls output once interval env fuel k).1 =
        batchesOf (runLoop urls output once interval env' fuel k).1 ∧
      (runLoop urls output once interval env fuel k).2 =
        (runLoop urls output once interval env' fuel k).2 := by
  intro fuel
  induction fuel with
  | zero => intro k; exact ⟨rfl, rfl⟩
  | succ f ih =>
      intro k
      have hres : check_all_urls (env k).probe urls =
          check_all_urls (env' k).probe urls := by rw [hp k]
      cases once
      · simp only [runLoop, Bool.false_eq_true, if_false]
        constructor
        · rw [batchesOf_append, batchesOf_append,
            batchesOf_iterEvents, batchesOf_iterEvents, hres,
            batchesOf_cons_sleep, batchesOf_cons_sleep, (ih (k + 1)).1]
        · exact (ih (k + 1)).2
      · simp only [runLoop, if_true]
        rw [batchesOf_iterEvents, batchesOf_iterEvents, hres]
        exact ⟨rfl, trivial⟩

/-- A constant probe environment: every URL yields a 200 response. -/
def probeOk : String → ProbeEnv := fun _ =>
  ⟨SendResult.ok 200, ⟨0, 42000000⟩, 1700000000⟩

/-- Iteration environment whose every file write fails with "disk full". -/
def iterFail : Nat → IterEnv := fun _ => ⟨probeOk, some "disk full"⟩

/-- Iteration environment whose file writes all succeed. -/
def iterOk : Nat → IterEnv := fun _ => ⟨probeOk, none⟩

/-- Claim C7: when the JSON file write of iteration `k` fails, the failure
is reported to standard error and swallowed: the batches delivered and the
exit behavior of the loop are exactly those of a run whose writes succeed
(`env'` with the same probe I/O), under `once = false` and `once = true`
alike. -/
theorem write_failure_swallowed (urls : List String) (path : String)
    (once : Bool) (interval : Nat) (env env' : Nat → IterEnv)
    (hp : ∀ i, (env i).probe = (env' i).probe)
    (fuel k : Nat) (hfuel : 1 ≤ fuel) (msg : String)
    (hfail : (env k).writeErr = some msg) :
    Event.stderrMsg ("Failed to save results: " ++ msg) ∈
      (runLoop urls (some path) once interval env fuel k).1 ∧
    batchesOf (runLoop urls (some path) once interval env fuel k).1 =
      batchesOf (runLoop urls (some path) once interval env' fuel k).1 ∧
    (runLoop urls (some path) once interval env fuel k).2 =
      (runLoop urls (some path) once interval env' fuel k).2 := by
  refine ⟨?_,
    (runLoop_ignores_writeErr urls (some path) once interval env env' hp
      fuel k).1,
    (runLoop_ignores_writeErr urls (some path) once interval env env' hp
      fuel k).2⟩
  obtain ⟨f, rfl⟩ : ∃ f, fuel = f + 1 := ⟨fuel - 1, by omega⟩
  have hmem : Event.stderrMsg ("Failed to save results: " ++ msg) ∈
      iterEvents (some path) (env k) (check_all_urls (env k).probe urls) := by
    simp [iterEvents, hfail]
  cases once
  · simp only [runLoop, Bool.false_eq_true, if_false]
    exact List.mem_append_left _ hmem
  · simp only [runLoop, if_true]
    exact hmem

/-- Witness for C7: a two-iteration run whose writes fail emits the stderr
report, and delivers the same batches with the same exit behavior as the
run whose writes succeed. -/
theorem write_failure_swallowed_witness :
    Event.stderrMsg ("Failed to save results: " ++ "disk full") ∈
      (runLoop ["https://ok.example/"] (some "out.json") false 1 iterFail
        2 0).1 ∧
    batchesOf (runLoop ["https://ok.example/"] (some "out.json") false 1
        iterFail 2 0).1 =
      batchesOf (runLoop ["https://ok.example/"] (some "out.json") false 1
        iterOk 2 0).1 ∧
    (runLoop ["https://ok.example/"] (some "out.json") false 1 iterFail
        2 0).2 =
      (runLoop ["https://ok.example/"] (some "out.json") false 1 iterOk
        2 0).2 :=
  write_failure_swallowed ["https://ok.example/"] "out.json" false 1
    iterFail iterOk (fun _ => rfl) 2 0 (by decide) "disk full" rfl

/-- Claim C8: with `once = true` the scheduler loop runs exactly one
batch: it delivers the single batch `check_all_urls` produced to the
terminal sink, writes it to the file sink when an output path is set,
never sleeps, and the process exits with code 0. -/
theorem once_single_batch (urls : List String) (output : Option String)
    (interval : Nat) (env : Nat → IterEnv) (fuel : Nat) (hfuel : 1 ≤ fuel) :
    (runLoop urls output true interval env fuel 0).2 = some 0 ∧
    batchesOf (runLoop urls output true interval env fuel 0).1 =
      [check_all_urls (env 0).probe urls] ∧
    sleepCount (runLoop urls output true interval env fuel 0).1 = 0 ∧
    (∀ path, output = some path →
      ∃ b, Event.fileWrite path (check_all_urls (env 0).probe urls) b ∈
        (runLoop urls output true interval env fuel 0).1) := by
  obtain ⟨f, rfl⟩ : ∃ f, fuel = f + 1 := ⟨fuel - 1, by omega⟩
  have hrun : runLoop urls output true interval env (f + 1) 0 =
      (iterEvents output (env 0) (check_all_urls (env 0).probe urls),
        some 0) := rfl
  rw [hrun]
  refine ⟨rfl, batchesOf_iterEvents output (env 0) _,
    sleepCount_iterEvents output (env 0) _, ?_⟩
  intro path hpath
  subst hpath
  rcases hw : (env 0).writeErr with _ | msg
  · exact ⟨true, by simp [iterEvents, hw]⟩
  · exact ⟨false, by simp [iterEvents, hw]⟩

/-- Witness for C8: a concrete single run with an output path. -/
theorem once_single_batch_witness :
    (runLoop ["https://ok.example/"] (some "out.json") true 30 iterOk
        1 0).2 = some 0 ∧
    batchesOf (runLoop ["https://ok.example/"] (some "out.json") true 30
        iterOk 1 0).1 =
      [check_all_urls (iterOk 0).probe ["https://ok.example/"]] ∧
    sleepCount (runLoop ["https://ok.example/"] (some "out.json") true 30
        iterOk 1 0).1 = 0 ∧
    (∀ path, (some "out.json" : Option String) = some path →
      ∃ b, Event.fileWrite path
          (check_all_urls (iterOk 0).probe ["https://ok.example/"]) b ∈
        (runLoop ["https://ok.example/"] (some "out.json") true 30 iterOk
          1 0).1) :=
  once_single_batch ["https://ok.example/"] (some "out.json") 30 iterOk 1
    (by decide)

end HHC
